import Mathlib

/-!
Shallow embedding of `src/cn_snapshots.py` (CN-Snapshots): a Streamlit app
that resolves historical nation snapshots from a paginated history feed,
loads an alliance roster from a dated bulk zip archive, and computes
gain/loss deltas between two snapshots per nation.

Pure Python functions become Lean functions; network I/O is modelled by
passing the environment's responses in as explicit function arguments
(`fetch : Nat → FetchResult` for history pages, `net : Nat → Nat → ZipResult`
for archive downloads).  Python exceptions that can escape a function are
modelled with `Except`; exceptions the source catches locally are folded
into the return value exactly where the source catches them.
-/

namespace CN

/-- A calendar date (the `.date()` part of a Python `datetime`). -/
structure Date where
  year : Nat
  month : Nat
  day : Nat
deriving DecidableEq, Repr

/-- A full timestamp, as produced by parsing `"%Y-%m-%d %H:%M:%S"`. -/
structure DateTime where
  date : Date
  hour : Nat
  minute : Nat
  second : Nat
deriving DecidableEq, Repr

/-- Numeric value of a decimal digit character. -/
def digitVal (c : Char) : Nat := c.toNat - 48

/-- Value of a fixed run of decimal digit characters, `none` if any is not a digit. -/
def digitsVal (cs : List Char) : Option Nat :=
  if cs ≠ [] ∧ cs.all Char.isDigit then
    some (cs.foldl (fun a c => 10 * a + digitVal c) 0)
  else none

/-- Model of `pd.to_datetime(s, format="%Y-%m-%d %H:%M:%S")` on a single string:
the string must be exactly `YYYY-MM-DD HH:MM:SS` with the separators in place and
all nineteen positions digit/separator; field ranges are checked (month 1–12,
day 1–31, hour < 24, minute/second < 60).  Finer calendar validation (days per
month, leap years) is not modelled; no claim depends on it. -/
def parseDateTime (s : String) : Option DateTime :=
  match s.data with
  | [y1, y2, y3, y4, '-', m1, m2, '-', d1, d2, ' ', h1, h2, ':', n1, n2, ':', s1, s2] =>
    match digitsVal [y1, y2, y3, y4], digitsVal [m1, m2], digitsVal [d1, d2],
          digitsVal [h1, h2], digitsVal [n1, n2], digitsVal [s1, s2] with
    | some y, some mo, some d, some h, some mi, some se =>
      if 1 ≤ mo ∧ mo ≤ 12 ∧ 1 ≤ d ∧ d ≤ 31 ∧ h < 24 ∧ mi < 60 ∧ se < 60 then
        some ⟨⟨y, mo, d⟩, h, mi, se⟩
      else none
    | _, _, _, _, _, _ => none
  | _ => none

/-- A cell of a DataFrame: either a raw string (as parsed out of HTML) or a
parsed datetime (after `pd.to_datetime` has been assigned into a column). -/
inductive Cell where
  | s (v : String)
  | dt (v : DateTime)
deriving DecidableEq, Repr

/-- `pd.to_datetime(cell, format=...)`: a string cell is parsed, a datetime cell
passes through unchanged. -/
def cellParse : Cell → Option DateTime
  | .s v => parseDateTime v
  | .dt v => some v

/-- A pandas DataFrame as used by the script: a header row naming the columns
and a list of body rows. -/
structure DF where
  headers : List String
  rows : List (List Cell)
deriving DecidableEq, Repr

/-- `df.empty`: true when the frame has no rows or no columns. -/
def DF.isEmptyDF (df : DF) : Bool := df.rows.isEmpty || df.headers.isEmpty

/-- Python exceptions that can escape the functions modelled here. -/
inductive Err where
  /-- `AttributeError` from calling a method on `None` (e.g. missing `thead`). -/
  | attrError
  /-- `ValueError` from `pd.DataFrame` on a header/body column-count mismatch. -/
  | shapeError
  /-- `KeyError` from indexing a missing column. -/
  | keyError
  /-- `ValueError` from `pd.to_datetime` on a malformed timestamp. -/
  | parseError
deriving DecidableEq, Repr

/-- The parts of a `<table class="table-striped">` tag that `parse_table` reads:
its header cell texts (absent when there is no `<thead>`) and its body rows'
cell texts (absent when there is no `<tbody>`). -/
structure TableTag where
  thead : Option (List String)
  tbody : Option (List (List String))
deriving DecidableEq, Repr

/-- A parsed HTML page (`BeautifulSoup`): the striped table, if any. -/
structure Soup where
  table : Option TableTag
deriving DecidableEq, Repr

/-- `parse_table(soup)`.  No table → empty DataFrame.  A table without a
`<thead>` or `<tbody>` makes the source call `.find_all` on `None`, raising
`AttributeError`.  A body row whose width differs from the header makes
`pd.DataFrame(rows, columns=headers)` raise; rows here are rectangular in
every claim, so pandas' NaN-padding of short rows is not modelled further. -/
def parse_table (soup : Soup) : Except Err DF :=
  match soup.table with
  | none => .ok ⟨[], []⟩
  | some t =>
    match t.thead with
    | none => .error .attrError
    | some headers =>
      match t.tbody with
      | none => .error .attrError
      | some rows =>
        if rows.all (fun r => r.length = headers.length) then
          .ok ⟨headers, rows.map (fun r => r.map Cell.s)⟩
        else .error .shapeError

/-- Parse every cell of column `i` (`pd.to_datetime(df["Last Updated"], ...)`);
fails if any cell is missing or unparseable. -/
def parseCol (rows : List (List Cell)) (i : Nat) : Option (List DateTime) :=
  match rows with
  | [] => some []
  | r :: rs =>
    match (r.get? i).bind cellParse, parseCol rs i with
    | some d, some ds => some (d :: ds)
    | _, _ => none

/-- Write the parsed datetimes back into column `i`
(`df["Last Updated"] = pd.to_datetime(...)`). -/
def setCol (rows : List (List Cell)) (i : Nat) (ds : List DateTime) : List (List Cell) :=
  List.zipWith (fun r d => r.set i (.dt d)) rows ds

/-- Index of the first parsed timestamp whose calendar date equals the target
(the first `True` of the boolean mask `df["Last Updated"].dt.date == target.date()`). -/
def firstMatchIdx (target : Date) : List DateTime → Option Nat
  | [] => none
  | d :: rest =>
    if d.date = target then some 0
    else (firstMatchIdx target rest).map (· + 1)

/-- `find_snapshot(df, target_date)`: overwrite the `"Last Updated"` column with
parsed datetimes, then return the first row (in document order) whose date part
equals `target_date.date()`, or `none`.  The updated DataFrame is returned
explicitly because the source mutates its argument in place. -/
def find_snapshot (df : DF) (target : DateTime) :
    Except Err (DF × Option (List Cell)) :=
  match df.headers.indexOf? "Last Updated" with
  | none => .error .keyError
  | some i =>
    match parseCol df.rows i with
    | none => .error .parseError
    | some ds =>
      let rows' := setCol df.rows i ds
      match firstMatchIdx target.date ds with
      | none => .ok (⟨df.headers, rows'⟩, none)
      | some k => .ok (⟨df.headers, rows'⟩, rows'.get? k)

/-- The fixed field set of a Snapshot (`COLUMNS` in the source). -/
def COLUMNS : List String :=
  ["Alliance", "Alliance Rank", "Gov", "Team", "Tech", "Infra", "Land", "Mode",
   "NS", "Defcon", "Soldiers", "Tanks", "Cruise", "Nukes",
   "Off. Casualties", "Def. Casualties", "Votes", "Resource1", "Resource2"]

/-- A Snapshot: a field-mapping over the fixed field set; `none` is Python `None`. -/
def Snapshot : Type := List (String × Option Cell)

instance : DecidableEq Snapshot := by
  unfold Snapshot
  infer_instance

/-- The all-absent Snapshot `{col: None for col in COLUMNS}`. -/
def allAbsent : Snapshot := COLUMNS.map (fun c => (c, (none : Option Cell)))

/-- `row[col]` on a Series indexed by `headers`: `KeyError` if absent. -/
def rowGet (headers : List String) (row : List Cell) (c : String) : Except Err Cell :=
  match headers.indexOf? c with
  | none => .error .keyError
  | some i =>
    match row.get? i with
    | none => .error .keyError
    | some v => .ok v

/-- `Option`-valued map over a list, failing if any element fails. -/
def exceptMapList (f : α → Except Err β) : List α → Except Err (List β)
  | [] => .ok []
  | x :: xs =>
    match f x, exceptMapList f xs with
    | .ok y, .ok ys => .ok (y :: ys)
    | .error e, _ => .error e
    | _, .error e => .error e

/-- `{col: row[col] for col in COLUMNS}` on a matched row. -/
def extractCols (headers : List String) (row : List Cell) : Except Err Snapshot :=
  exceptMapList (fun c => (rowGet headers row c).map (fun v => (c, some v))) COLUMNS

/-- Outcome of one `fetch_history_page` call as observed by `get_snapshot`:
either one of the exceptions it catches (`HTTPError`, `ReadTimeout`) or a
parsed page. -/
inductive FetchResult where
  | httpErr
  | ok (soup : Soup)

/-- The page loop of `get_snapshot`, starting at `page` with `fuel` iterations
remaining.  Transport error → stop, all-absent.  Empty decode → stop,
all-absent.  Match → extract the fixed field set.  No match → next page.
Decode/locate exceptions propagate (the source does not catch them). -/
def getSnapshotAux (fetch : Nat → FetchResult) (target : DateTime) :
    Nat → Nat → Except Err Snapshot
  | _, 0 => .ok allAbsent
  | page, fuel + 1 =>
    match fetch page with
    | .httpErr => .ok allAbsent
    | .ok soup =>
      match parse_table soup with
      | .error e => .error e
      | .ok df =>
        if df.isEmptyDF then .ok allAbsent
        else
          match find_snapshot df target with
          | .error e => .error e
          | .ok (_, none) => getSnapshotAux fetch target (page + 1) fuel
          | .ok (df', some row) => extractCols df'.headers row

/-- `get_snapshot(nation_id, snapshot_date, max_pages=20)`: iterate pages 1
through `max_pages`. -/
def get_snapshot (fetch : Nat → FetchResult) (target : DateTime)
    (maxPages : Nat := 20) : Except Err Snapshot :=
  getSnapshotAux fetch target 1 maxPages

/-! ## Archive Resolver (`download_and_extract_zip`, `load_data`) -/

/-- The alliance-roster DataFrame decoded from the bulk archive's delimited
file; `none` cells are pandas NaN (so `dropna` can discard them). -/
structure ArchiveTable where
  headers : List String
  rows : List (List (Option String))
deriving DecidableEq, Repr

/-- Outcome of one archive download as observed by `download_and_extract_zip`:
either a `requests.RequestException` (connection error or the `raise_for_status`
of a non-2xx response), or a zip whose members each either decode via
`pd.read_csv` into a table or fail to decode (`none`). -/
inductive ZipResult where
  | reqError
  | zip (files : List (Option ArchiveTable))

/-- `download_and_extract_zip(url)`: transport failure → `None`; empty zip →
`None`; otherwise the first member's decode result, with any decode exception
caught and turned into `None`. -/
def download_and_extract_zip (r : ZipResult) : Option ArchiveTable :=
  match r with
  | .reqError => none
  | .zip [] => none
  | .zip (f :: _) => f

/-- The candidate dates of `load_data`, as offsets into
`dates_to_try = [today, today - 1 day, today + 1 day]`:
`0` = today, `1` = yesterday, `2` = tomorrow. -/
def datesToTry : List Nat := [0, 1, 2]

/-- The full probe order of `load_data`: for each candidate date in order, the
suffix variants `510001.zip` (variant `0`) then `510002.zip` (variant `1`). -/
def probeOrder : List (Nat × Nat) := [(0, 0), (0, 1), (1, 0), (1, 1), (2, 0), (2, 1)]

/-- The date loop of `load_data`: for each candidate date try variant 1 then
variant 2; return the first successfully decoded table. -/
def loadDataGo (net : Nat → Nat → ZipResult) : List Nat → Option ArchiveTable
  | [] => none
  | d :: rest =>
    match download_and_extract_zip (net d 0) with
    | some df => some df
    | none =>
      match download_and_extract_zip (net d 1) with
      | some df => some df
      | none => loadDataGo net rest

/-- `load_data()`, with the network's responses passed in as `net date variant`. -/
def load_data (net : Nat → Nat → ZipResult) : Option ArchiveTable :=
  loadDataGo net datesToTry

/-- Keep the first occurrence of each string (`pandas.Series.unique` order). -/
def dedupGo (seen : List String) : List String → List String
  | [] => []
  | x :: xs => if seen.contains x then dedupGo seen xs else x :: dedupGo (x :: seen) xs

/-- `df["Alliance"].dropna()`: the non-NaN values of a named column. -/
def colValues (df : ArchiveTable) (c : String) : List String :=
  match df.headers.indexOf? c with
  | none => []
  | some i => df.rows.filterMap (fun r => (r.get? i).bind id)

/-- `sorted(df_alliances["Alliance"].dropna().unique())`. -/
def sortedUniqueAlliances (df : ArchiveTable) : List String :=
  (dedupGo [] (colValues df "Alliance")).mergeSort (fun a b => a ≤ b)

/-- The alliance dropdown contents in `main`: if the roster failed to load or
lacks the `Alliance` / `Nation ID` columns, fall back to the single hard-coded
default group; otherwise the sorted unique alliance names. -/
def sidebarAlliances (r : Option ArchiveTable) : List String :=
  match r with
  | none => ["Freehold of The Wolves"]
  | some df =>
    if df.headers.contains "Alliance" && df.headers.contains "Nation ID" then
      sortedUniqueAlliances df
    else ["Freehold of The Wolves"]

/-! ## Batch Orchestrator input validation (`main`, lines 157–170) -/

/-- Model of Python `str.isdigit()` on the ASCII inputs at hand: nonempty and
all decimal digits. -/
def pyIsDigit (s : String) : Bool := !s.data.isEmpty && s.data.all Char.isDigit

/-- The whitespace characters Python `str.strip()` removes (the ASCII ones;
the feed's inputs contain no exotic Unicode whitespace). -/
def isPySpace (c : Char) : Bool :=
  c = ' ' || c = '\t' || c = '\n' || c = '\r' || c = '\x0b' || c = '\x0c'

/-- Python `str.strip()`: drop leading and trailing whitespace. -/
def pyStrip (s : String) : String :=
  ⟨((s.data.dropWhile isPySpace).reverse.dropWhile isPySpace).reverse⟩

/-- Line splitter for `str.splitlines()`: emit the accumulated line at each
`'\n'`; a trailing line terminator yields no extra empty line. -/
def splitlinesGo : List Char → List Char → List String
  | [], acc => [⟨acc.reverse⟩]
  | ['\n'], acc => [⟨acc.reverse⟩]
  | '\n' :: c :: rest, acc => ⟨acc.reverse⟩ :: splitlinesGo (c :: rest) []
  | c :: rest, acc => splitlinesGo rest (c :: acc)

/-- Python `str.splitlines()` on `'\n'`-terminated text (the text-area input);
the empty string yields no lines. -/
def splitlines (s : String) : List String :=
  match s.data with
  | [] => []
  | c :: rest => splitlinesGo (c :: rest) []

/-- `[line.strip() for line in nation_input.splitlines() if line.strip()]`:
split on line breaks, trim each line, drop blanks. -/
def cleanedLines (input : String) : List String :=
  ((splitlines input).map pyStrip).filter (fun s => !s.data.isEmpty)

/-- The partition loop over `raw_ids`: valid (all-digit) identifiers in order,
then invalid ones in order. -/
def validateIds (input : String) : List String × List String :=
  ((cleanedLines input).filter pyIsDigit,
   (cleanedLines input).filter (fun s => !pyIsDigit s))

/-- What `main` does after partitioning: no valid identifier → `st.error` and
`return` with no tables; otherwise the batch proceeds on the valid list, with
the invalid list reported as a warning. -/
inductive BatchOutcome where
  | inputError
  | proceed (valid invalid : List String)
deriving DecidableEq, Repr

/-- The validation gate of `main`: partition, then stop on an empty valid set. -/
def runBatchGate (input : String) : BatchOutcome :=
  match validateIds input with
  | (valid, invalid) => if valid.isEmpty then .inputError else .proceed valid invalid

/-! ## Delta Engine (`main`, lines 205–258) -/

/-- `to_int(val)` from `main`: `int(val)` with every exception turned into `0`.
`pyInt` models the builtin `int()` on a string: optional surrounding
whitespace, an optional sign, then a nonempty run of decimal digits (the only
shapes the feed produces; Python's underscore grouping is not modelled). -/
def pyInt (s : String) : Option Int :=
  match (pyStrip s).data with
  | '-' :: rest => (digitsVal rest).map (fun n => -(n : Int))
  | '+' :: rest => (digitsVal rest).map (fun n => (n : Int))
  | cs => (digitsVal cs).map (fun n => (n : Int))

/-- `to_int(val)`: `None` → 0 (a `TypeError` inside `int`), a datetime cell → 0
(`TypeError`), an unparseable string → 0 (`ValueError`), a parseable string →
its integer value. -/
def to_int (val : Option Cell) : Int :=
  match val with
  | none => 0
  | some (.dt _) => 0
  | some (.s v) => (pyInt v).getD 0

/-- One row of `df_snapshots` as read back by the differences loop: the
identifier, display name, the two dates, and the two snapshots' tracked
metric cells. -/
structure ComparisonRow where
  nationId : String
  rulerName : Option String
  date1 : String
  date2 : String
  techD1 : Option Cell
  techD2 : Option Cell
  infraD1 : Option Cell
  infraD2 : Option Cell
  landD1 : Option Cell
  landD2 : Option Cell
  nsD1 : Option Cell
  nsD2 : Option Cell
  nukesD1 : Option Cell
  nukesD2 : Option Cell
  offcD1 : Option Cell
  offcD2 : Option Cell
  defcD1 : Option Cell
  defcD2 : Option Cell
deriving DecidableEq, Repr

/-- One row of `df_diffs`. -/
structure DeltaRow where
  nationId : String
  rulerName : Option String
  date1 : String
  date2 : String
  netTechGain : Int
  netTechLoss : Int
  netInfraGain : Int
  netInfraLoss : Int
  netLandGain : Int
  netLandLoss : Int
  netNSGain : Int
  netNSLoss : Int
  netNukesGain : Int
  netNukesLoss : Int
  netOffCasualties : Int
  netDefCasualties : Int
deriving DecidableEq, Repr

/-- The body of the differences loop in `main`: coerce both dates' values,
take `date2 - date1`, and split each tracked metric's delta into a gain field
(`diff if diff > 0 else 0`) and a loss field (`diff if diff < 0 else 0`);
casualties stay single signed deltas. -/
def make_diff_row (row : ComparisonRow) : DeltaRow :=
  let tech_diff := to_int row.techD2 - to_int row.techD1
  let infra_diff := to_int row.infraD2 - to_int row.infraD1
  let land_diff := to_int row.landD2 - to_int row.landD1
  let ns_diff := to_int row.nsD2 - to_int row.nsD1
  let nukes_diff := to_int row.nukesD2 - to_int row.nukesD1
  let offc_diff := to_int row.offcD2 - to_int row.offcD1
  let defc_diff := to_int row.defcD2 - to_int row.defcD1
  { nationId := row.nationId
    rulerName := row.rulerName
    date1 := row.date1
    date2 := row.date2
    netTechGain := if tech_diff > 0 then tech_diff else 0
    netTechLoss := if tech_diff < 0 then tech_diff else 0
    netInfraGain := if infra_diff > 0 then infra_diff else 0
    netInfraLoss := if infra_diff < 0 then infra_diff else 0
    netLandGain := if land_diff > 0 then land_diff else 0
    netLandLoss := if land_diff < 0 then land_diff else 0
    netNSGain := if ns_diff > 0 then ns_diff else 0
    netNSLoss := if ns_diff < 0 then ns_diff else 0
    netNukesGain := if nukes_diff > 0 then nukes_diff else 0
    netNukesLoss := if nukes_diff < 0 then nukes_diff else 0
    netOffCasualties := offc_diff
    netDefCasualties := defc_diff }

/-! ## Helper lemmas -/

/-- Splitting a signed delta into `diff if diff > 0 else 0` and
`diff if diff < 0 else 0` reconstructs the delta, and at most one side is
nonzero. -/
theorem gain_loss_split (d : Int) :
    (if d > 0 then d else 0) + (if d < 0 then d else 0) = d ∧
    ((if d > 0 then d else 0) = 0 ∨ (if d < 0 then d else 0) = 0) := by
  constructor
  · split_ifs <;> omega
  · split_ifs <;> omega

/-- The gain side of the split is non-negative. -/
theorem gain_nonneg (d : Int) : 0 ≤ (if d > 0 then d else 0) := by
  split_ifs <;> omega

/-- The loss side of the split is non-positive. -/
theorem loss_nonpos (d : Int) : (if d < 0 then d else 0) ≤ 0 := by
  split_ifs <;> omega

/-! ## Claims -/

/-- Claim C1: for every ComparisonRow and every tracked cumulative metric
(Tech, Infra, Land, NS, Nukes), the emitted gain and loss fields satisfy
`gain + loss = to_int(value@date2) - to_int(value@date1)`, and at most one of
gain/loss is nonzero. -/
theorem delta_gain_loss_reconstruction (row : ComparisonRow) :
    ((make_diff_row row).netTechGain + (make_diff_row row).netTechLoss
        = to_int row.techD2 - to_int row.techD1 ∧
      ((make_diff_row row).netTechGain = 0 ∨ (make_diff_row row).netTechLoss = 0)) ∧
    ((make_diff_row row).netInfraGain + (make_diff_row row).netInfraLoss
        = to_int row.infraD2 - to_int row.infraD1 ∧
      ((make_diff_row row).netInfraGain = 0 ∨ (make_diff_row row).netInfraLoss = 0)) ∧
    ((make_diff_row row).netLandGain + (make_diff_row row).netLandLoss
        = to_int row.landD2 - to_int row.landD1 ∧
      ((make_diff_row row).netLandGain = 0 ∨ (make_diff_row row).netLandLoss = 0)) ∧
    ((make_diff_row row).netNSGain + (make_diff_row row).netNSLoss
        = to_int row.nsD2 - to_int row.nsD1 ∧
      ((make_diff_row row).netNSGain = 0 ∨ (make_diff_row row).netNSLoss = 0)) ∧
    ((make_diff_row row).netNukesGain + (make_diff_row row).netNukesLoss
        = to_int row.nukesD2 - to_int row.nukesD1 ∧
      ((make_diff_row row).netNukesGain = 0 ∨ (make_diff_row row).netNukesLoss = 0)) :=
  ⟨gain_loss_split _, gain_loss_split _, gain_loss_split _, gain_loss_split _,
   gain_loss_split _⟩

/-- A concrete ComparisonRow with a technology loss: Tech 100 at date 1,
Tech 80 at date 2. -/
def rowTechLoss : ComparisonRow :=
  { nationId := "527097", rulerName := some "Ruler", date1 := "2024-01-01",
    date2 := "2024-02-01",
    techD1 := some (.s "100"), techD2 := some (.s "80"),
    infraD1 := none, infraD2 := none, landD1 := none, landD2 := none,
    nsD1 := none, nsD2 := none, nukesD1 := none, nukesD2 := none,
    offcD1 := none, offcD2 := none, defcD1 := none, defcD2 := none }

/-- Claim C2, counterexample: on a row with Tech going from 100 to 80 the
emitted `Net Tech Loss` is `-20`, which is negative — the loss column carries
the signed delta, not its magnitude, so the four columns are not all
non-negative. -/
theorem delta_loss_negative_counterexample :
    (make_diff_row rowTechLoss).netTechLoss = -20 ∧
    (make_diff_row rowTechLoss).netTechLoss < 0 := by
  refine ⟨by decide, by decide⟩

/-- Claim C2, amended: for every ComparisonRow, each tracked metric's gain
field is non-negative and each loss field is non-positive (the loss field is
the signed delta when negative, else zero). -/
theorem delta_gain_nonneg_loss_nonpos (row : ComparisonRow) :
    (0 ≤ (make_diff_row row).netTechGain ∧ (make_diff_row row).netTechLoss ≤ 0) ∧
    (0 ≤ (make_diff_row row).netInfraGain ∧ (make_diff_row row).netInfraLoss ≤ 0) ∧
    (0 ≤ (make_diff_row row).netLandGain ∧ (make_diff_row row).netLandLoss ≤ 0) ∧
    (0 ≤ (make_diff_row row).netNSGain ∧ (make_diff_row row).netNSLoss ≤ 0) ∧
    (0 ≤ (make_diff_row row).netNukesGain ∧ (make_diff_row row).netNukesLoss ≤ 0) :=
  ⟨⟨gain_nonneg _, loss_nonpos _⟩, ⟨gain_nonneg _, loss_nonpos _⟩,
   ⟨gain_nonneg _, loss_nonpos _⟩, ⟨gain_nonneg _, loss_nonpos _⟩,
   ⟨gain_nonneg _, loss_nonpos _⟩⟩

/-- Claim C9: the Delta Engine's coercion is total — a missing value (`None`)
coerces to 0, a string value parseable as an integer coerces to that integer,
and an unparseable string coerces to 0; no input is an error. -/
theorem to_int_total_spec (v : Option Cell) :
    (v = none → to_int v = 0) ∧
    (∀ s n, v = some (.s s) → pyInt s = some n → to_int v = n) ∧
    (∀ s, v = some (.s s) → pyInt s = none → to_int v = 0) := by
  refine ⟨?_, ?_, ?_⟩
  · rintro rfl; rfl
  · rintro s n rfl h; simp [to_int, h]
  · rintro s rfl h; simp [to_int, h]

/-- Witness for C9 at the concrete value `"550"`. -/
theorem to_int_total_spec_witness : to_int (some (Cell.s "550")) = 550 :=
  (to_int_total_spec (some (Cell.s "550"))).2.1 "550" 550 rfl (by decide)

/-- Claim C4: whenever the page loop reaches a page whose fetch raises one of
the caught transport errors (`HTTPError` from a non-2xx status, or
`ReadTimeout`), the resolver immediately returns the all-absent Snapshot —
independent of the remaining page budget and of every later page — so the
fetch is never retried and no transport error escapes as an exception. -/
theorem get_snapshot_transport_stops (fetch : Nat → FetchResult) (target : DateTime)
    (p fuel : Nat) (hf : 0 < fuel) (h : fetch p = .httpErr) :
    getSnapshotAux fetch target p fuel = .ok allAbsent := by
  cases fuel with
  | zero => omega
  | succ n => simp [getSnapshotAux, h]

/-- Witness for C4: a fetch that always reports a transport error makes the
full 20-page resolution return the all-absent Snapshot. -/
theorem get_snapshot_transport_stops_witness :
    getSnapshotAux (fun _ => FetchResult.httpErr) ⟨⟨2024, 1, 1⟩, 0, 0, 0⟩ 1 20
      = .ok allAbsent :=
  get_snapshot_transport_stops _ _ 1 20 (by omega) rfl

/-- Claim C8: the Batch Orchestrator splits its raw input on lines, trims,
drops blanks, and partitions the remaining tokens into valid (all-digit) and
invalid; every valid token is all-digit, every invalid one is not, both come
from the cleaned lines; an empty valid set signals an input error and produces
no tables, and otherwise the batch proceeds on exactly the valid tokens with
the invalid ones as the warning list. -/
theorem batch_gate_spec (input : String) :
    (∀ s ∈ (validateIds input).1, pyIsDigit s = true) ∧
    (∀ s ∈ (validateIds input).2, pyIsDigit s = false) ∧
    (∀ s ∈ (validateIds input).1, s ∈ cleanedLines input) ∧
    (∀ s ∈ (validateIds input).2, s ∈ cleanedLines input) ∧
    ((validateIds input).1 = [] → runBatchGate input = .inputError) ∧
    ((validateIds input).1 ≠ [] →
      runBatchGate input = .proceed (validateIds input).1 (validateIds input).2) := by
  refine ⟨?_, ?_, ?_, ?_, ?_, ?_⟩
  · intro s hs
    exact (List.mem_filter.mp hs).2
  · intro s hs
    have h := (List.mem_filter.mp hs).2
    simpa using h
  · intro s hs
    exact (List.mem_filter.mp hs).1
  · intro s hs
    exact (List.mem_filter.mp hs).1
  · intro h
    simp only [runBatchGate, validateIds] at *
    rw [h]
    rfl
  · intro h
    simp only [runBatchGate, validateIds] at *
    rw [if_neg]
    simpa using h

/-- Witness for C8 at the spec's scenario input `"123\nabc\n456"`: the batch
proceeds with valid set `["123", "456"]` and warning list `["abc"]`. -/
theorem batch_gate_spec_witness :
    runBatchGate "123\nabc\n456" = .proceed ["123", "456"] ["abc"] := by
  have h := (batch_gate_spec "123\nabc\n456").2.2.2.2.2 (by decide)
  rw [h]
  decide

/-- Claim C7: the Archive Resolver probes the candidates in the fixed flat
order (today, variant 1), (today, variant 2), (yesterday, 1), (yesterday, 2),
(tomorrow, 1), (tomorrow, 2); every download or decode failure is silently
skipped and the first successfully decoded table is returned; when every
candidate fails the result is absent and the sidebar falls back to the single
hard-coded default group; in particular a success only at (tomorrow, 1) after
four failures is returned with no earlier failure surfaced. -/
theorem load_data_probe_spec (net : Nat → Nat → ZipResult) :
    load_data net
        = probeOrder.findSome? (fun p => download_and_extract_zip (net p.1 p.2)) ∧
    (load_data net = none →
      sidebarAlliances (load_data net) = ["Freehold of The Wolves"]) ∧
    (∀ t, download_and_extract_zip (net 0 0) = none →
      download_and_extract_zip (net 0 1) = none →
      download_and_extract_zip (net 1 0) = none →
      download_and_extract_zip (net 1 1) = none →
      download_and_extract_zip (net 2 0) = some t →
      load_data net = some t) := by
  refine ⟨?_, ?_, ?_⟩
  · cases h00 : download_and_extract_zip (net 0 0) <;>
      cases h01 : download_and_extract_zip (net 0 1) <;>
      cases h10 : download_and_extract_zip (net 1 0) <;>
      cases h11 : download_and_extract_zip (net 1 1) <;>
      cases h20 : download_and_extract_zip (net 2 0) <;>
      cases h21 : download_and_extract_zip (net 2 1) <;>
      simp [load_data, datesToTry, loadDataGo, probeOrder, List.findSome?_cons,
        h00, h01, h10, h11, h20, h21]
  · intro h
    rw [h]
    rfl
  · intro t h00 h01 h10 h11 h20
    simp [load_data, datesToTry, loadDataGo, h00, h01, h10, h11, h20]

/-- A concrete decoded alliance roster. -/
def rosterW : ArchiveTable :=
  ⟨["Nation ID", "Alliance"], [[some "1001", some "Freehold of The Wolves"]]⟩

/-- A network where both variants fail for today and yesterday (transport
errors) and the first variant succeeds for tomorrow. -/
def netTomorrow : Nat → Nat → ZipResult := fun d v =>
  match d, v with
  | 2, 0 => .zip [some rosterW]
  | _, _ => .reqError

/-- Witness for C7: with failures for today and yesterday and a success for
tomorrow, `load_data` returns that table. -/
theorem load_data_probe_spec_witness : load_data netTomorrow = some rosterW :=
  (load_data_probe_spec netTomorrow).2.2 rosterW rfl rfl rfl rfl rfl

/-- If no parsed timestamp's date equals the target, the boolean mask has no
first `True`. -/
theorem firstMatchIdx_eq_none (target : Date) (ds : List DateTime)
    (h : ∀ d ∈ ds, d.date ≠ target) : firstMatchIdx target ds = none := by
  induction ds with
  | nil => rfl
  | cons d rest ih =>
    simp only [firstMatchIdx]
    rw [if_neg (h d (List.mem_cons_self d rest)),
      ih (fun x hx => h x (List.mem_cons_of_mem d hx))]
    rfl

/-- If position `k` holds the first timestamp whose date equals the target,
the mask's first `True` is at `k`. -/
theorem firstMatchIdx_eq_some (target : Date) (ds : List DateTime) (k : Nat)
    (d : DateTime) (hk : ds.get? k = some d) (hd : d.date = target)
    (hfirst : ∀ j, j < k → ∀ dj, ds.get? j = some dj → dj.date ≠ target) :
    firstMatchIdx target ds = some k := by
  induction ds generalizing k with
  | nil => simp at hk
  | cons x rest ih =>
    cases k with
    | zero =>
      injection hk with hx
      subst hx
      simp only [firstMatchIdx]
      rw [if_pos hd]
    | succ k' =>
      have hx : x.date ≠ target := hfirst 0 (Nat.succ_pos k') x rfl
      simp only [firstMatchIdx]
      rw [if_neg hx,
        ih k' (by simpa using hk)
          (fun j hj dj hdj =>
            hfirst (j + 1) (Nat.succ_lt_succ hj) dj (by simpa using hdj))]
      rfl

/-- A successful column parse relates every row to its parsed timestamp. -/
theorem parseCol_rel (rows : List (List Cell)) (i : Nat) (ds : List DateTime)
    (h : parseCol rows i = some ds) :
    ∀ j r, rows.get? j = some r →
      ∃ d, ds.get? j = some d ∧ (r.get? i).bind cellParse = some d := by
  induction rows generalizing ds with
  | nil =>
    intro j r hr
    simp at hr
  | cons r0 rest ih =>
    intro j r hr
    simp only [parseCol] at h
    cases hc : (r0.get? i).bind cellParse with
    | none =>
      rw [hc] at h
      cases hrest : parseCol rest i <;> rw [hrest] at h <;> exact Option.noConfusion h
    | some d0 =>
      rw [hc] at h
      cases hrest : parseCol rest i with
      | none =>
        rw [hrest] at h
        exact Option.noConfusion h
      | some ds' =>
        rw [hrest] at h
        injection h with h'
        subst h'
        cases j with
        | zero =>
          injection hr with h''
          subst h''
          exact ⟨d0, rfl, hc⟩
        | succ j' => exact ih ds' hrest j' r (by simpa using hr)

/-- Reading back row `j` after the column write-back. -/
theorem setCol_get? (rows : List (List Cell)) (i : Nat) (ds : List DateTime)
    (j : Nat) (r : List Cell) (d : DateTime)
    (hr : rows.get? j = some r) (hd : ds.get? j = some d) :
    (setCol rows i ds).get? j = some (r.set i (.dt d)) := by
  induction rows generalizing ds j with
  | nil => simp at hr
  | cons r0 rest ih =>
    cases ds with
    | nil => simp at hd
    | cons d0 ds' =>
      cases j with
      | zero =>
        injection hr with h1
        injection hd with h2
        subst h1
        subst h2
        rfl
      | succ j' =>
        simpa only [setCol, List.zipWith] using
          ih ds' j' (by simpa using hr) (by simpa using hd)

/-- Cell `i` of a row after `set i a`, when the row has a cell there. -/
theorem get?_set_self {α : Type} (r : List α) (i : Nat) (a b : α)
    (h : r.get? i = some b) : (r.set i a).get? i = some a := by
  induction r generalizing i with
  | nil => simp at h
  | cons x xs ih =>
    cases i with
    | zero => rfl
    | succ i' => exact ih i' (by simpa using h)

/-- Claim C5: on a page with a `"Last Updated"` column whose timestamps all
parse under `%Y-%m-%d %H:%M:%S`, the locator compares only the date portion to
the target: when no record's date equals the target it returns not-found, and
when position `k` holds the first record whose date equals the target (times
being irrelevant) it returns exactly the row at position `k` in document
order.  Determinism across repeated calls is immediate: `find_snapshot` is a
pure function of its arguments. -/
theorem find_snapshot_locates_first (df : DF) (target : DateTime) (i : Nat)
    (ds : List DateTime)
    (hi : df.headers.indexOf? "Last Updated" = some i)
    (hp : parseCol df.rows i = some ds) :
    ((∀ d ∈ ds, d.date ≠ target.date) →
      find_snapshot df target = .ok (⟨df.headers, setCol df.rows i ds⟩, none)) ∧
    (∀ k d, ds.get? k = some d → d.date = target.date →
      (∀ j, j < k → ∀ dj, ds.get? j = some dj → dj.date ≠ target.date) →
      find_snapshot df target
        = .ok (⟨df.headers, setCol df.rows i ds⟩, (setCol df.rows i ds).get? k)) := by
  constructor
  · intro h
    simp [find_snapshot, hi, hp, firstMatchIdx_eq_none target.date ds h]
  · intro k d hk hd hfirst
    simp [find_snapshot, hi, hp,
      firstMatchIdx_eq_some target.date ds k d hk hd hfirst]

/-- A concrete page holding two records with the same calendar date and
different times. -/
def dfTwoSameDate : DF :=
  ⟨["Last Updated", "Tech"],
   [[Cell.s "2024-01-01 05:00:00", Cell.s "500"],
    [Cell.s "2024-01-01 23:59:59", Cell.s "600"]]⟩

/-- Witness for C5: on `dfTwoSameDate` with target date 2024-01-01 the locator
returns the first record in document order (the 05:00:00 one). -/
theorem find_snapshot_locates_first_witness :
    find_snapshot dfTwoSameDate ⟨⟨2024, 1, 1⟩, 0, 0, 0⟩
      = .ok (⟨["Last Updated", "Tech"],
              [[Cell.dt ⟨⟨2024, 1, 1⟩, 5, 0, 0⟩, Cell.s "500"],
               [Cell.dt ⟨⟨2024, 1, 1⟩, 23, 59, 59⟩, Cell.s "600"]]⟩,
             some [Cell.dt ⟨⟨2024, 1, 1⟩, 5, 0, 0⟩, Cell.s "500"]) := by
  have h := (find_snapshot_locates_first dfTwoSameDate ⟨⟨2024, 1, 1⟩, 0, 0, 0⟩ 0
      [⟨⟨2024, 1, 1⟩, 5, 0, 0⟩, ⟨⟨2024, 1, 1⟩, 23, 59, 59⟩] rfl (by decide)).2
      0 ⟨⟨2024, 1, 1⟩, 5, 0, 0⟩ rfl rfl
      (fun j hj dj hdj => absurd hj (Nat.not_lt_zero j))
  exact h

/-- Claim C10: the locator is not a pure reader of its page — whenever the
`"Last Updated"` column exists at index `i`, parses to `ds`, and holds at
least one raw string cell, the DataFrame that comes out of `find_snapshot` has
that column overwritten with the parsed datetimes and is different from the
DataFrame that went in (the source assigns the parsed column into its
argument in place; the embedding returns the updated frame explicitly). -/
theorem find_snapshot_mutates (df : DF) (target : DateTime) (i : Nat)
    (ds : List DateTime)
    (hi : df.headers.indexOf? "Last Updated" = some i)
    (hp : parseCol df.rows i = some ds)
    (hs : ∃ j r s, df.rows.get? j = some r ∧ r.get? i = some (.s s)) :
    ∀ df' ro, find_snapshot df target = .ok (df', ro) →
      df'.rows = setCol df.rows i ds ∧ df' ≠ df := by
  intro df' ro h
  have hdf' : df' = ⟨df.headers, setCol df.rows i ds⟩ := by
    simp only [find_snapshot, hi, hp] at h
    cases hfm : firstMatchIdx target.date ds <;> rw [hfm] at h <;>
      simp at h <;> exact h.1.symm
  have hrows : df'.rows = setCol df.rows i ds := by rw [hdf']
  refine ⟨hrows, ?_⟩
  intro hEq
  obtain ⟨j, r, s, hr, hcell⟩ := hs
  obtain ⟨d, hd, _⟩ := parseCol_rel df.rows i ds hp j r hr
  have h1 : (setCol df.rows i ds).get? j = some (r.set i (.dt d)) :=
    setCol_get? df.rows i ds j r d hr hd
  have h2 : setCol df.rows i ds = df.rows := by
    rw [← hrows, hEq]
  rw [h2, hr] at h1
  injection h1 with h3
  have h4 : (r.set i (Cell.dt d)).get? i = some (.dt d) :=
    get?_set_self r i (.dt d) (.s s) hcell
  rw [← h3] at h4
  injection hcell.symm.trans h4 with h5
  exact Cell.noConfusion h5

/-- A one-record page whose timestamp is a raw string. -/
def dfOneString : DF := ⟨["Last Updated"], [[Cell.s "2024-01-02 03:04:05"]]⟩

/-- Witness for C10: running the locator on `dfOneString` yields a page whose
timestamp cell is now a parsed datetime, and that page differs from the input
page. -/
theorem find_snapshot_mutates_witness :
    (DF.mk ["Last Updated"] [[Cell.dt ⟨⟨2024, 1, 2⟩, 3, 4, 5⟩]]) ≠ dfOneString ∧
    (DF.mk ["Last Updated"] [[Cell.dt ⟨⟨2024, 1, 2⟩, 3, 4, 5⟩]]).rows
      = setCol dfOneString.rows 0 [⟨⟨2024, 1, 2⟩, 3, 4, 5⟩] := by
  have h := find_snapshot_mutates dfOneString ⟨⟨2023, 5, 5⟩, 0, 0, 0⟩ 0
      [⟨⟨2024, 1, 2⟩, 3, 4, 5⟩] rfl rfl
      ⟨0, [Cell.s "2024-01-02 03:04:05"], "2024-01-02 03:04:05", rfl, rfl⟩
      (DF.mk ["Last Updated"] [[Cell.dt ⟨⟨2024, 1, 2⟩, 3, 4, 5⟩]]) none rfl
  exact ⟨h.2, h.1⟩

/-- A page whose sole record has an unparseable `"Last Updated"` value. -/
def soupMalformed : Soup := ⟨some ⟨some ["Last Updated"], some [["garbage"]]⟩⟩

/-- A feed serving the malformed page on every page. -/
def fetchMalformed : Nat → FetchResult := fun _ => .ok soupMalformed

/-- Claim C3, counterexample: on a feed whose page decodes to one record with
the unparseable timestamp `"garbage"` — so no record matches any target date —
`get_snapshot` does not return the all-absent Snapshot: the `pd.to_datetime`
call inside the locator raises, and the exception escapes the resolver. -/
theorem get_snapshot_raises_counterexample :
    get_snapshot fetchMalformed ⟨⟨2024, 1, 1⟩, 0, 0, 0⟩ 20 = .error .parseError ∧
    get_snapshot fetchMalformed ⟨⟨2024, 1, 1⟩, 0, 0, 0⟩ 20 ≠ .ok allAbsent := by
  refine ⟨rfl, ?_⟩
  intro h
  rw [show get_snapshot fetchMalformed ⟨⟨2024, 1, 1⟩, 0, 0, 0⟩ 20
      = .error .parseError from rfl] at h
  exact Except.noConfusion h

/-- Claim C3, amended: for every feed and target date such that every fetched
page either reports a caught transport error or decodes cleanly — an empty
frame, or a frame with a `"Last Updated"` column whose timestamps all parse
and none of whose dates equals the target — `get_snapshot` returns the
Snapshot in which every field of the fixed field set is absent, and it does
not raise.  (The unamended claim fails when a fetched page's timestamps do not
parse: the exception escapes, see the counterexample.) -/
theorem get_snapshot_no_match_all_absent (fetch : Nat → FetchResult)
    (target : DateTime) (maxPages : Nat)
    (hclean : ∀ p soup, fetch p = .ok soup →
      ∃ df, parse_table soup = .ok df ∧
        (df.isEmptyDF = true ∨
          ∃ i ds, df.headers.indexOf? "Last Updated" = some i ∧
            parseCol df.rows i = some ds ∧ ∀ d ∈ ds, d.date ≠ target.date)) :
    get_snapshot fetch target maxPages = .ok allAbsent := by
  suffices h : ∀ fuel page, getSnapshotAux fetch target page fuel = .ok allAbsent from
    h maxPages 1
  intro fuel
  induction fuel with
  | zero => intro page; rfl
  | succ n ih =>
    intro page
    cases hf : fetch page with
    | httpErr => simp [getSnapshotAux, hf]
    | ok soup =>
      obtain ⟨df, hdf, hrest⟩ := hclean page soup hf
      cases hrest with
      | inl hempty => simp [getSnapshotAux, hf, hdf, hempty]
      | inr hfull =>
        obtain ⟨i, ds, hi, hp, hnone⟩ := hfull
        have hfs : find_snapshot df target
            = .ok (⟨df.headers, setCol df.rows i ds⟩, none) := by
          simp [find_snapshot, hi, hp, firstMatchIdx_eq_none target.date ds hnone]
        by_cases hemp : df.isEmptyDF = true
        · simp [getSnapshotAux, hf, hdf, hemp]
        · simp [getSnapshotAux, hf, hdf, hemp, hfs, ih]

/-- A well-formed page whose sole record is dated 2024-01-05. -/
def soupJan5 : Soup := ⟨some ⟨some ["Last Updated"], some [["2024-01-05 10:00:00"]]⟩⟩

/-- Witness for C3 (amended): a feed serving only the 2024-01-05 record on
every page never matches the target 2024-01-01, and the 20-page resolution
returns the all-absent Snapshot. -/
theorem get_snapshot_no_match_all_absent_witness :
    get_snapshot (fun _ => FetchResult.ok soupJan5) ⟨⟨2024, 1, 1⟩, 0, 0, 0⟩ 20
      = .ok allAbsent :=
  get_snapshot_no_match_all_absent (fun _ => FetchResult.ok soupJan5)
    ⟨⟨2024, 1, 1⟩, 0, 0, 0⟩ 20
    (fun p soup h => by
      injection h with h'
      subst h'
      exact ⟨⟨["Last Updated"], [[Cell.s "2024-01-05 10:00:00"]]⟩, rfl,
        Or.inr ⟨0, [⟨⟨2024, 1, 5⟩, 10, 0, 0⟩], rfl, rfl, by decide⟩⟩)

/-- A page whose striped table has body rows but no `<thead>`. -/
def soupHeaderless : Soup := ⟨some ⟨none, some [["2024-01-01 00:00:00"]]⟩⟩

/-- Claim C6, counterexample: on a payload whose expected table is present but
whose header is absent, the decoder does not return an empty record sequence —
the source calls `.find_all` on the `None` returned by `table.find("thead")`
and raises `AttributeError`. -/
theorem parse_table_headerless_counterexample :
    parse_table soupHeaderless = .error .attrError ∧
    parse_table soupHeaderless ≠ .ok ⟨[], []⟩ := by
  refine ⟨rfl, ?_⟩
  intro h
  rw [show parse_table soupHeaderless = .error .attrError from rfl] at h
  exact Except.noConfusion h

/-- Claim C6, amended: when the expected table is absent the decoder returns
an empty record sequence rather than raising, and the Resolver treats that
page as zero records (it stops and returns the all-absent Snapshot); but when
the table is present and its header is absent, the decoder raises instead of
returning the empty sequence.  (The unamended claim covered the missing-header
case too, which the code does not: see the counterexample.) -/
theorem parse_table_absent_spec (soup : Soup) (fetch : Nat → FetchResult)
    (target : DateTime) (p fuel : Nat) :
    (soup.table = none → parse_table soup = .ok ⟨[], []⟩) ∧
    (∀ t, soup.table = some t → t.thead = none →
      parse_table soup = .error .attrError) ∧
    (0 < fuel → fetch p = .ok soup → soup.table = none →
      getSnapshotAux fetch target p fuel = .ok allAbsent) := by
  refine ⟨?_, ?_, ?_⟩
  · intro h
    simp [parse_table, h]
  · intro t ht hh
    simp [parse_table, ht, hh]
  · intro hfuel hf hnone
    cases fuel with
    | zero => omega
    | succ n =>
      simp [getSnapshotAux, hf, parse_table, hnone, DF.isEmptyDF]

/-- Witness for C6 (amended) at a concrete tableless page: the decoder yields
the empty frame and the resolver returns the all-absent Snapshot. -/
theorem parse_table_absent_spec_witness :
    parse_table ⟨none⟩ = .ok ⟨[], []⟩ ∧
    getSnapshotAux (fun _ => FetchResult.ok ⟨none⟩) ⟨⟨2024, 1, 1⟩, 0, 0, 0⟩ 1 20
      = .ok allAbsent :=
  ⟨(parse_table_absent_spec ⟨none⟩ (fun _ => FetchResult.ok ⟨none⟩)
      ⟨⟨2024, 1, 1⟩, 0, 0, 0⟩ 1 20).1 rfl,
   (parse_table_absent_spec ⟨none⟩ (fun _ => FetchResult.ok ⟨none⟩)
      ⟨⟨2024, 1, 1⟩, 0, 0, 0⟩ 1 20).2.2 (by omega) rfl rfl⟩

end CN
